import Mathlib

/-!
Verification of the scoped value-broadcast ("context") mechanism of the
react-hooks-use-context repository.

The embedding models, from the source:
  * `src/context/user.js` — `UserContext` (`React.createContext()` with no
    argument) and `UserProvider` (supplies a fixed `currentUser` record);
  * `src/context/theme.js` — `ThemeContext` and `ThemeProvider`
    (`useState("dark")`, provider value `{ theme, setTheme }`);
  * `src/components/Header.js` — destructures `{ user, setUser }` from
    `UserContext`, `handleLogin` toggles, button label `Logout`/`Login`;
  * `src/components/DarkModeToggle.js` — destructures `{ theme, setTheme }`,
    `handleToggleTheme` writes `"dark"` when checked else `"light"`,
    checkbox `checked={theme === "dark"}`;
  * `Profile` (unnamed source file) — destructures `{ user }` and renders a
    login prompt when `user` is falsy.

JavaScript dynamic values are embedded as `JSValue` (distinguishing
`undefined` from `null`); React's context resolution is a lookup in the
stack of enclosing provider values (nearest first), falling back to the
construction-time default; `useState` becomes explicit state passing.
Destructuring an `undefined`/`null` value raises a `TypeError`, embedded
with `Except`.
-/

namespace ReactContext

/-- JavaScript runtime values, as far as this repository uses them. -/
inductive JSValue where
  | undefined
  | null
  | bool (b : Bool)
  | str (s : String)
  | arr (elems : List JSValue)
  | obj (fields : List (String × JSValue))
  | fn (id : String)
deriving Repr

/-- JavaScript truthiness of the values above (`undefined`, `null`, `false`
and the empty string are falsy; objects, arrays and functions are truthy). -/
def JSValue.truthy : JSValue → Bool
  | .undefined => false
  | .null => false
  | .bool b => b
  | .str s => !s.isEmpty
  | .arr _ => true
  | .obj _ => true
  | .fn _ => true

/-- The only runtime error this code can raise: a `TypeError` from
destructuring / property access on `undefined` or `null`. -/
inductive JSError where
  | typeError
deriving Repr, DecidableEq

/-- Property access `v.k` (also what destructuring `const { k } = v` does for
one field): throws a `TypeError` on `undefined`/`null`, returns the field of
an object (or `undefined` when missing), `undefined` for an unknown property
of any other value. -/
def getField : JSValue → String → Except JSError JSValue
  | .undefined, _ => .error .typeError
  | .null, _ => .error .typeError
  | .obj fields, k => .ok ((fields.lookup k).getD .undefined)
  | _, _ => .ok .undefined

/-- A React context: after `React.createContext(defaultValue)` the only
construction-time datum is the default value handed to unbound readers. -/
structure Context where
  defaultValue : JSValue

/-- `React.createContext` — the argument is the default value; a JavaScript
call with no argument passes `undefined`. -/
def createContext (defaultValue : JSValue) : Context :=
  ⟨defaultValue⟩

/-- `src/context/user.js` line 4: `React.createContext()` — called with no
argument, so the construction-time default is `undefined`. -/
def UserContext : Context := createContext .undefined

/-- `src/context/theme.js` line 2: `React.createContext()` — called with no
argument, so the construction-time default is `undefined`. -/
def ThemeContext : Context := createContext .undefined

/-- React context resolution as the consumers of this repository use it:
`useContext(ctx)` inside a tree resolves to the value of the nearest
enclosing `ctx.Provider` (the head of the stack of enclosing provider values,
nearest first) and to the construction-time default when no provider
encloses the consumer. -/
def useContext (ctx : Context) (providerStack : List JSValue) : JSValue :=
  match providerStack with
  | [] => ctx.defaultValue
  | v :: _ => v

/-- `src/context/user.js` lines 8–11: the fixed `currentUser` record the
current `UserProvider` revision supplies. -/
def currentUser : JSValue :=
  .obj [("name", .str "Duane"),
        ("interests", .arr [.str "Coding", .str "Biking",
                            .str "Words ending in \x27ing\x27"])]

/-- `src/context/user.js` line 14: `UserProvider` passes `currentUser` itself
as the provider value. -/
def userProviderValue : JSValue := currentUser

/-- Modelled from the spec: `src/data.js` (imported by `Header.js` line 4 as
`defaultUser`) is absent from the sources; the spec's user-scope end-to-end
scenario gives the demo record `{name:"Duane", interests:["Coding","Biking"]}`. -/
def defaultUser : JSValue :=
  .obj [("name", .str "Duane"),
        ("interests", .arr [.str "Coding", .str "Biking"])]

/-- What the `Profile` component renders. -/
inductive ProfileView where
  | loginPrompt
  | profile (name : JSValue) (interests : JSValue)
deriving Repr

/-- `Profile` (unnamed source file, lines 5–14): destructures
`const { user } = useContext(UserContext)` — a `TypeError` when the resolved
context value is `undefined`/`null` — then renders the login prompt when
`user` is falsy and the profile view otherwise. -/
def renderProfile (userStack : List JSValue) : Except JSError ProfileView := do
  let ctxVal := useContext UserContext userStack
  let user ← getField ctxVal "user"
  if user.truthy then
    let name ← getField user "name"
    let interests ← getField user "interests"
    return .profile name interests
  else
    return .loginPrompt

/-- `src/components/Header.js` lines 9–15: the value `handleLogin` passes to
`setUser` — `null` when the current `user` is truthy, `defaultUser` otherwise. -/
def handleLoginArg (user : JSValue) : JSValue :=
  if user.truthy then .null else defaultUser

/-- `src/components/Header.js` lines 21–23: the themed button's label —
`"Logout"` when `user` is truthy, `"Login"` otherwise. -/
def headerButtonLabel (user : JSValue) : String :=
  if user.truthy then "Logout" else "Login"

/-- `src/components/Header.js` lines 8–23: destructures
`const { user, setUser } = useContext(UserContext)` (a `TypeError` when the
resolved value is `undefined`/`null`) and renders the button label. -/
def renderHeader (userStack : List JSValue) : Except JSError String := do
  let ctxVal := useContext UserContext userStack
  let user ← getField ctxVal "user"
  let _setUser ← getField ctxVal "setUser"
  return headerButtonLabel user

/-- The state of one `ThemeProvider` instance: `src/context/theme.js` line 4,
`const [theme, setTheme] = useState("dark")`, embedded as explicit state. -/
structure ThemeProviderState where
  theme : String
deriving Repr, DecidableEq

/-- `useState("dark")`: the initial state of a `ThemeProvider` instance. -/
def themeProviderInit : ThemeProviderState := ⟨"dark"⟩

/-- `setTheme` replaces the held theme outright (React state setters replace,
they do not merge). -/
def setTheme (s : String) (_st : ThemeProviderState) : ThemeProviderState := ⟨s⟩

/-- `src/context/theme.js` line 6: the provider value
`{ theme, setTheme }` built from the instance state. -/
def themeProviderValue (st : ThemeProviderState) : JSValue :=
  .obj [("theme", .str st.theme), ("setTheme", .fn "setTheme")]

/-- Calling the `setTheme` obtained by destructuring a resolved context value:
a `TypeError` unless that value actually carries the setter function, a plain
state replacement when it does. -/
def invokeSetTheme (ctxVal : JSValue) (s : String) (st : ThemeProviderState) :
    Except JSError ThemeProviderState := do
  let f ← getField ctxVal "setTheme"
  match f with
  | .fn "setTheme" => return setTheme s st
  | _ => .error .typeError

/-- `src/components/DarkModeToggle.js` lines 6–8: the checkbox change handler
writes `"dark"` when the box is checked and `"light"` otherwise. -/
def handleToggleTheme (checked : Bool) : String :=
  if checked then "dark" else "light"

/-- `src/components/DarkModeToggle.js` line 14: the checkbox renders checked
exactly when `theme === "dark"`. -/
def darkModeToggleChecked (theme : String) : Bool :=
  theme == "dark"

/-- The theme held after a sequence of checkbox change events (the only
mutation path of the theme scope in the sources), starting from the
`ThemeProvider` initial state. -/
def themeAfterEvents (events : List Bool) : ThemeProviderState :=
  events.foldl (fun st checked => setTheme (handleToggleTheme checked) st)
    themeProviderInit

/-- Modelled from the spec: the stateful user binding (`bindScope(S, V)` with
mutator `setUser`) that `Header.js` consumes via `{ user, setUser }`; the
provider revision implementing it is absent from the sources (the
`UserProvider` present supplies a fixed record with no setter). -/
structure UserProviderState where
  user : JSValue

/-- Modelled from the spec: binding the user scope to an initial value. -/
def bindUser (v : JSValue) : UserProviderState := ⟨v⟩

/-- Modelled from the spec: the user binding's mutator totally replaces the
held value. -/
def setUser (v : JSValue) (_st : UserProviderState) : UserProviderState := ⟨v⟩

/-- Modelled from the spec: the provider value `{ user, setUser }` the
stateful user binding supplies, matching what `Header.js` destructures. -/
def userStatefulValue (st : UserProviderState) : JSValue :=
  .obj [("user", st.user), ("setUser", .fn "setUser")]

/-- A world with two sibling `ThemeProvider` instances and one stateful user
binding: each binding owns its own state slot. -/
structure ContextWorld where
  themeA : ThemeProviderState
  themeB : ThemeProviderState
  userS : UserProviderState

/-- Setter call on binding A of the theme scope: only A's slot changes. -/
def worldSetThemeA (s : String) (w : ContextWorld) : ContextWorld :=
  { w with themeA := setTheme s w.themeA }

/-- Setter call on binding B of the theme scope: only B's slot changes. -/
def worldSetThemeB (s : String) (w : ContextWorld) : ContextWorld :=
  { w with themeB := setTheme s w.themeB }

/-- Setter call on the user binding: only the user slot changes. -/
def worldSetUser (v : JSValue) (w : ContextWorld) : ContextWorld :=
  { w with userS := setUser v w.userS }

/-- What a consumer subscribed through theme binding A reads. -/
def readThemeA (w : ContextWorld) : Except JSError JSValue :=
  getField (useContext ThemeContext [themeProviderValue w.themeA]) "theme"

/-- What a consumer subscribed through theme binding B reads. -/
def readThemeB (w : ContextWorld) : Except JSError JSValue :=
  getField (useContext ThemeContext [themeProviderValue w.themeB]) "theme"

/-- What a consumer subscribed through the user binding reads. -/
def readUserW (w : ContextWorld) : Except JSError JSValue :=
  getField (useContext UserContext [userStatefulValue w.userS]) "user"

/-- Stepping the theme state by one checkbox event keeps the theme in
the set of values `handleToggleTheme` can produce. -/
theorem themeAfterEvents_mem (events : List Bool) (st : ThemeProviderState)
    (h : st.theme = "dark" ∨ st.theme = "light") :
    (events.foldl (fun st checked => setTheme (handleToggleTheme checked) st)
        st).theme = "dark" ∨
    (events.foldl (fun st checked => setTheme (handleToggleTheme checked) st)
        st).theme = "light" := by
  induction events generalizing st with
  | nil => exact h
  | cons c rest ih =>
    apply ih
    cases c <;> simp [setTheme, handleToggleTheme]

/-- C1 counterexample: with no enclosing provider, the theme scope resolves
to `undefined` (its `createContext()` default), not `"dark"`, and the user
scope resolves to `undefined`, not `null`. -/
theorem c1_counterexample :
    useContext ThemeContext [] = JSValue.undefined ∧
    useContext ThemeContext [] ≠ JSValue.str "dark" ∧
    useContext UserContext [] ≠ JSValue.null := by
  refine ⟨rfl, ?_, ?_⟩ <;> simp [useContext, ThemeContext, UserContext, createContext]

/-- C1 (amended): a read with no active binding returns exactly the scope's
construction-time default value, and that default is `undefined` for both the
user scope and the theme scope, since both are built by `React.createContext()`
with no argument. -/
theorem c1_unbound_read_returns_default :
    (∀ ctx : Context, useContext ctx [] = ctx.defaultValue) ∧
    UserContext.defaultValue = JSValue.undefined ∧
    ThemeContext.defaultValue = JSValue.undefined :=
  ⟨fun _ => rfl, rfl, rfl⟩

/-- C2 counterexample: `Profile` invoked with no enclosing provider does not
complete normally — destructuring the `undefined` default raises a
`TypeError`. -/
theorem c2_counterexample :
    renderProfile [] = Except.error JSError.typeError := rfl

/-- C2 (amended): the read itself (`useContext`) never raises and yields the
default, but the consumers destructure that value, so `Profile` and `Header`
invoked with no enclosing provider raise a `TypeError` (the default being
`undefined`); the "Please Login To View Profile" fallback is reached when a
provider supplies a value whose `user` field is absent or falsy, as the
present `UserProvider` does. -/
theorem c2_unbound_consumer_behavior :
    (∀ ctx : Context, useContext ctx [] = ctx.defaultValue) ∧
    renderProfile [] = Except.error JSError.typeError ∧
    renderHeader [] = Except.error JSError.typeError ∧
    renderProfile [userProviderValue] = Except.ok ProfileView.loginPrompt :=
  ⟨fun _ => rfl, rfl, rfl, rfl⟩

/-- C3: a read resolves to the value of the nearest enclosing active binding:
with nested bindings of the same scope, a consumer inside the inner binding
resolves to the inner value, and not to the outer one whenever the two
values differ. -/
theorem c3_nearest_enclosing_binding_wins (ctx : Context) (inner outer : JSValue)
    (rest : List JSValue) :
    useContext ctx (inner :: outer :: rest) = inner ∧
    (inner ≠ outer → useContext ctx (inner :: outer :: rest) ≠ outer) :=
  ⟨rfl, fun h => h⟩

/-- C3 witness: distinct nested theme bindings, the inner one wins. -/
theorem c3_witness :
    useContext ThemeContext [JSValue.str "light", JSValue.str "dark"]
      = JSValue.str "light" ∧
    useContext ThemeContext [JSValue.str "light", JSValue.str "dark"]
      ≠ JSValue.str "dark" := by
  have h := c3_nearest_enclosing_binding_wins ThemeContext
    (JSValue.str "light") (JSValue.str "dark") []
  exact ⟨h.1, h.2 (by simp)⟩

/-- C4: a read from within a binding's subtree immediately after the binding
is established returns exactly the bound value; in particular `Profile` inside
`UserProvider` reads exactly the value `UserProvider` supplies. -/
theorem c4_read_inside_binding (V : JSValue) (rest : List JSValue) :
    useContext UserContext (V :: rest) = V ∧
    useContext UserContext [userProviderValue] = userProviderValue :=
  ⟨rfl, rfl⟩

/-- C5 counterexample: the user scope's construction-time default is
`undefined`, not `null` (`React.createContext()` takes no argument in
`src/context/user.js`). -/
theorem c5_counterexample :
    useContext UserContext [] = JSValue.undefined ∧
    JSValue.undefined ≠ JSValue.null := by
  exact ⟨rfl, by simp⟩

/-- C5 (amended): the unbound read returns `undefined` (not `null`); against
the stateful user binding modelled from the spec, a read after binding the
demo record returns that record, a read after `setUser(null)` returns `null`,
and each setter call totally replaces the held value. -/
theorem c5_user_scope_scenario (old : UserProviderState) (v : JSValue) :
    useContext UserContext [] = JSValue.undefined ∧
    getField (userStatefulValue (bindUser defaultUser)) "user"
      = Except.ok defaultUser ∧
    getField (userStatefulValue (setUser JSValue.null (bindUser defaultUser)))
      "user" = Except.ok JSValue.null ∧
    (setUser v old).user = v :=
  ⟨rfl, rfl, rfl, rfl⟩

/-- C6: the theme starts as `"dark"`; after `setTheme("light")` a read through
the binding returns `"light"`; and a sibling binding's independent setter call
does not alter this binding's resolved value. -/
theorem c6_theme_scope_scenario (st sibling : ThemeProviderState) (s : String)
    (u : UserProviderState) :
    themeProviderInit.theme = "dark" ∧
    getField (themeProviderValue (setTheme "light" st)) "theme"
      = Except.ok (JSValue.str "light") ∧
    (worldSetThemeB s ⟨st, sibling, u⟩).themeA = st ∧
    readThemeA (worldSetThemeB s ⟨st, sibling, u⟩) = readThemeA ⟨st, sibling, u⟩ :=
  ⟨rfl, rfl, rfl, rfl⟩

/-- C7: a setter call on one binding changes exactly the consumers subscribed
through that binding; consumers of the sibling binding of the same scope and
consumers of the other scope read unchanged values. -/
theorem c7_setter_frame_effect (w : ContextWorld) (X : String) (v : JSValue) :
    readThemeA (worldSetThemeA X w) = Except.ok (JSValue.str X) ∧
    readThemeB (worldSetThemeA X w) = readThemeB w ∧
    readUserW (worldSetThemeA X w) = readUserW w ∧
    readUserW (worldSetUser v w) = Except.ok v ∧
    readThemeA (worldSetUser v w) = readThemeA w ∧
    readThemeB (worldSetUser v w) = readThemeB w :=
  ⟨rfl, rfl, rfl, rfl, rfl, rfl⟩

/-- C8: calling the setter twice in a row with the same value is idempotent —
both calls succeed (no error) and the state after the second call equals the
state after the first. -/
theorem c8_setter_idempotent (st : ThemeProviderState) (X : String) :
    invokeSetTheme (themeProviderValue st) X st = Except.ok (setTheme X st) ∧
    invokeSetTheme (themeProviderValue (setTheme X st)) X (setTheme X st)
      = Except.ok (setTheme X st) ∧
    setTheme X (setTheme X st) = setTheme X st :=
  ⟨rfl, rfl, rfl⟩

/-- C9: `Header`'s `handleLogin` is a strict toggle — it passes `null` to the
setter when the current user is truthy and `defaultUser` when it is falsy, and
the button label is `"Logout"` exactly when the user is truthy and `"Login"`
otherwise. -/
theorem c9_handleLogin_strict_toggle (u : JSValue) :
    (u.truthy = true →
      handleLoginArg u = JSValue.null ∧ headerButtonLabel u = "Logout") ∧
    (u.truthy = false →
      handleLoginArg u = defaultUser ∧ headerButtonLabel u = "Login") := by
  constructor <;> intro h <;>
    simp [handleLoginArg, headerButtonLabel, h]

/-- C9 witness: a truthy user (the demo record) is logged out to `null`; a
falsy user (`null`) is logged in to `defaultUser`. -/
theorem c9_witness :
    JSValue.truthy defaultUser = true ∧ handleLoginArg defaultUser = JSValue.null ∧
    JSValue.truthy JSValue.null = false ∧ handleLoginArg JSValue.null = defaultUser :=
  ⟨rfl, ((c9_handleLogin_strict_toggle defaultUser).1 rfl).1,
   rfl, ((c9_handleLogin_strict_toggle JSValue.null).2 rfl).1⟩

/-- C10: the theme is initialized to `"dark"` and, under its only mutation
path (the checkbox change handler), always remains `"dark"` or `"light"`; the
handler writes `"dark"` when the checkbox is checked and `"light"` otherwise;
and the checkbox renders checked exactly when the theme equals `"dark"`. -/
theorem c10_theme_invariant (events : List Bool) (theme : String) :
    themeProviderInit.theme = "dark" ∧
    ((themeAfterEvents events).theme = "dark" ∨
     (themeAfterEvents events).theme = "light") ∧
    handleToggleTheme true = "dark" ∧
    handleToggleTheme false = "light" ∧
    (darkModeToggleChecked theme = true ↔ theme = "dark") := by
  refine ⟨rfl, ?_, rfl, rfl, ?_⟩
  · exact themeAfterEvents_mem events themeProviderInit (Or.inl rfl)
  · simp [darkModeToggleChecked]

/-- C10 witness: after one uncheck event the theme is still a legal value,
and the checkbox is checked for the `"dark"` theme. -/
theorem c10_witness :
    ((themeAfterEvents [false]).theme = "dark" ∨
     (themeAfterEvents [false]).theme = "light") ∧
    darkModeToggleChecked "dark" = true :=
  ⟨(c10_theme_invariant [false] "dark").2.1,
   ((c10_theme_invariant [false] "dark").2.2.2.2).mpr rfl⟩

end ReactContext
